import Mathlib

/-!
Shallow embedding of `lib/report/util.js` (ncm-cli report renderer).

Modelling conventions:
* JS strings are Lean `String`s (`data` gives the character list); `s.slice(0, n)`
  is `jsSlice s n`, `s[i]` (character indexing) is `jsCharAt s i` (JS yields the
  string "undefined" when the index is out of range, which only ever happens in
  string concatenation there).
* The styling collaborator (`chalk` together with the `COLORS` palette of
  `lib/ncm-style`, which is outside this module) is treated symbolically, as the
  specification does: a chalk template `{color text}` is modelled by its text
  content, i.e. by chalk's output when color support is disabled.
* `console.log` output is modelled by returning the list of printed lines.
* A JS `Set` is modelled as a `Finset` (only membership and `size` are used;
  iteration order is never observed).
* Fallible paths (reading `.title`/iterating `failures` on a record that lacks
  them, indexing `SEVERITY_RMAP` out of range) are modelled with `Option`.
* JS `' '.repeat(n)` throws a `RangeError` for negative `n`.  The one repeat
  count that can go negative is the module-cell padding
  `' '.repeat(W[0] - mod.length)` — the truncated cell can still exceed 40
  characters (see `moduleNameCell_overflow_counterexample`) — so
  `moduleCellPart` returns `none` there, modelling the thrown `RangeError`.
  Every other repeat count is nonnegative (the license text is cut to at most
  20 characters and at most 5 badge entries are nonempty), so those use plain
  `Nat` subtraction.
-/

namespace NcmReport

/-- The severity ranking `SEVERITY_RMAP = ['NONE','LOW','MEDIUM','HIGH','CRITICAL']`:
index 0 = NONE .. index 4 = CRITICAL.  The source manipulates severities as
strings drawn from this closed set; we embed them as a five-element enumeration. -/
inductive Severity where
  | NONE
  | LOW
  | MEDIUM
  | HIGH
  | CRITICAL
deriving DecidableEq, BEq, Repr

/-- `SEVERITY_RMAP` from the source, as the ordered list of severities. -/
def SEVERITY_RMAP : List Severity :=
  [Severity.NONE, Severity.LOW, Severity.MEDIUM, Severity.HIGH, Severity.CRITICAL]

/-- The `license` record `{ title, pass }` of a published package. -/
structure License where
  title : String
  pass : Bool
deriving DecidableEq, Repr

/-- One entry of a package's `failures` list: `{ group, severity }`. -/
structure Failure where
  group : String
  severity : Severity
deriving DecidableEq, Repr

/-- A `PackageResult` record of the report.  `license` and `failures` are
`Option`s because the source may receive records where these fields are
missing/null (`pkg.failures || []` in `shortVulnerabilityList`). -/
structure PackageResult where
  name : String
  version : String
  published : Bool
  license : Option License := none
  failures : Option (List Failure) := none
  maxSeverity : Nat := 0
deriving DecidableEq, Repr

/-! ### moduleSort (source lines 202-212) -/

/-- The comparator passed to `Array.prototype.sort` by `moduleSort`.  The source
returns `-1`/`1` and falls off the end (returning `undefined`) when both keys
are equal; ECMAScript coerces that to "equal", hence the final `0`. -/
def moduleCmp (a b : PackageResult) : Int :=
  if a.maxSeverity > b.maxSeverity then -1
  else if b.maxSeverity > a.maxSeverity then 1
  else if a.name < b.name then -1
  else if b.name < a.name then 1
  else 0

/-- `a` may be placed before `b`: the comparator is nonpositive. -/
def moduleLe (a b : PackageResult) : Bool :=
  decide (moduleCmp a b ≤ 0)

/-- `moduleSort`: `report.sort(comparator)`.  `Array.prototype.sort` is a stable
sort consistent with the comparator (ES2019); we embed it as a stable merge
sort over the induced boolean order. -/
def moduleSort (report : List PackageResult) : List PackageResult :=
  report.mergeSort moduleLe

/-! ### String helpers (JS string primitives used by the renderer) -/

/-- `c.repeat n` for a one-character JS string `c` (e.g. `' '.repeat(n)`,
`'─'.repeat(n)`, `'|'.repeat(n)`). -/
def srep (c : Char) (n : Nat) : String :=
  String.mk (List.replicate n c)

/-- `' '.repeat n`. -/
def spaces (n : Nat) : String :=
  srep ' ' n

/-- JS `s.slice(0, n)`. -/
def jsSlice (s : String) (n : Nat) : String :=
  String.mk (s.data.take n)

/-- JS character indexing `s[i]`, as it behaves under string concatenation:
the one-character string, or `"undefined"` out of range. -/
def jsCharAt (s : String) (i : Nat) : String :=
  match s.data[i]? with
  | some c => String.mk [c]
  | none => "undefined"

/-! ### severityMeter / severityTextLabel (source lines 214-239) -/

/-- `severityMeter` (lines 214-221): `risk = SEVERITY_RMAP.indexOf(severity)`;
the filled slots `'|'.repeat(risk)` (in the severity's color) and the unfilled
slots `'|'.repeat(4 - risk)` (in the base color), `join('')`-ed into one
string. -/
def severityMeter (severity : Severity) : String :=
  let risk := SEVERITY_RMAP.indexOf severity
  srep '|' risk ++ srep '|' (4 - risk)

/-- `severityTextLabel` (lines 228-239): the fixed 4-character label. -/
def severityTextLabel : Severity → String
  | Severity.CRITICAL => "Crit"
  | Severity.HIGH => "High"
  | Severity.MEDIUM => "Med "
  | Severity.LOW => "Low "
  | Severity.NONE => "None"

/-- The `riskBadge` built at lines 127-129:
`severityMeter(...)[0] + severityMeter(...)[1] + severityTextLabel(...)`.
Note that `severityMeter` returns a *string* (its two parts are `join`-ed), so
the source's `[0]` and `[1]` index its first two characters. -/
def riskBadge (severity : Severity) : String :=
  jsCharAt (severityMeter severity) 0 ++ jsCharAt (severityMeter severity) 1 ++
    severityTextLabel severity

/-! ### moduleList cells (source lines 78-168) -/

/-- Column widths `W = [40, 12, 23, 15]`. -/
def W0 : Nat := 40
/-- `W[1]`. -/
def W1 : Nat := 12
/-- `W[2]`. -/
def W2 : Nat := 23
/-- `W[3]`. -/
def W3 : Nat := 15

/-- Module-name cell (lines 87-88): `"{name} @ {version}"`, and when that
exceeds `W[0]` the name is cut to `W[0] - 14 = 26` characters and
`"... @ {version}"` appended. -/
def moduleNameCell (name version : String) : String :=
  let mod := name ++ " @ " ++ version
  if mod.length > W0 then jsSlice name (W0 - 14) ++ "... @ " ++ version else mod

/-- The leading part of a data row (identical in both branches, lines 134/149):
left border, module cell, padding, next border.  The padding is
`' '.repeat(W[0] - mod.length)`: when the (truncated) module cell still
exceeds `W[0]` the repeat count is negative and the source throws a
`RangeError`, modelled as `none`. -/
def moduleCellPart (pkg : PackageResult) : Option String :=
  let mod := moduleNameCell pkg.name pkg.version
  if mod.length > W0 then none
  else some ("│ " ++ mod ++ " " ++ spaces (W0 - mod.length) ++ "│ ")

/-- License cell text (lines 97-101): the last `:`-separated chunk of the
title, trimmed, truncated with `…` when it would overflow the column. -/
def licenseCellText (title : String) : String :=
  let license := ((title.splitOn (":")).getLastD ("")).trim
  if license.length + 3 > W2 then jsSlice license (W2 - 4) ++ "…" else license

/-- The per-severity security failure counts `vulns` (lines 108-116):
`vulns[0] = LOW`, `vulns[1] = MEDIUM`, `vulns[2] = HIGH`, `vulns[3] = CRITICAL`.
The source tests the four severity strings with independent `if`s; the
severities being mutually exclusive, this is one match (NONE hits no bucket). -/
structure Vulns where
  low : Nat := 0
  medium : Nat := 0
  high : Nat := 0
  critical : Nat := 0
deriving DecidableEq, Repr

/-- Accumulate one `failures` entry into `vulns` (lines 109-116). -/
def bumpVuln (v : Vulns) (f : Failure) : Vulns :=
  if f.group = "security" then
    match f.severity with
    | Severity.CRITICAL => { v with critical := v.critical + 1 }
    | Severity.HIGH => { v with high := v.high + 1 }
    | Severity.MEDIUM => { v with medium := v.medium + 1 }
    | Severity.LOW => { v with low := v.low + 1 }
    | Severity.NONE => v
  else v

/-- The counts over a package's `failures` list. -/
def vulnsOf (failures : List Failure) : Vulns :=
  failures.foldl bumpVuln {}

/-- The `securityBadges` array (lines 117-124): aggregate glyph, then one
count+letter badge per severity bucket, most severe first, `''` for a zero
bucket. -/
def securityBadges (failures : List Failure) : List String :=
  let vulns := vulnsOf failures
  [ if vulns.low + vulns.medium + vulns.high + vulns.critical = 0 then "✓ 0" else "X ",
    if vulns.critical > 0 then toString vulns.critical ++ "C " else "",
    if vulns.high > 0 then toString vulns.high ++ "H " else "",
    if vulns.medium > 0 then toString vulns.medium ++ "M " else "",
    if vulns.low > 0 then toString vulns.low ++ "L " else "" ]

/-- A data row for a published package (lines 132-144); `none` models the
`RangeError` thrown by the module-cell padding on an overflowing cell. -/
def publishedRow (pkg : PackageResult) (lic : License) (fs : List Failure)
    (sev : Severity) : Option String :=
  (moduleCellPart pkg).map (fun cell =>
    cell ++
    riskBadge sev ++ spaces (W1 - 10) ++ "│ " ++
    (if lic.pass then "✓" else "X") ++ " " ++ licenseCellText lic.title ++
      spaces (W2 - (licenseCellText lic.title).length - 3) ++ "│ " ++
    String.join (securityBadges fs) ++
      spaces (W3 - 2 - ((securityBadges fs).filter (fun x => decide (x ≠ ""))).length * 2) ++
      "│")

/-- A data row for an unpublished package (lines 147-159): the Risk, License
and Security cells are blank padding between the border characters; `none`
models the `RangeError` thrown by the module-cell padding on an overflowing
cell. -/
def unpublishedRow (pkg : PackageResult) : Option String :=
  (moduleCellPart pkg).map (fun cell =>
    cell ++ spaces (W1 - 1) ++ "│" ++ spaces W2 ++ "│" ++ spaces W3 ++ "│")

/-- One data row.  For a published record the source dereferences
`pkg.license.title`, iterates `pkg.failures` and calls `.toUpperCase()` on
`SEVERITY_RMAP[pkg.maxSeverity]` (lines 97-129) before printing; a missing
license/failures field or an out-of-range `maxSeverity` throws a `TypeError`
there, modelled as `none`.  The print statement itself (lines 132-159) can
then throw a `RangeError` in either branch (see `moduleCellPart`). -/
def renderRow (pkg : PackageResult) : Option String :=
  if pkg.published then
    match pkg.license, pkg.failures, SEVERITY_RMAP[pkg.maxSeverity]? with
    | some lic, some fs, some sev => publishedRow pkg lic fs sev
    | _, _, _ => none
  else
    unpublishedRow pkg

/-- The header line (line 82). -/
def headerLine : String :=
  "  Module Name" ++ spaces (W0 - 9) ++ "Risk" ++ spaces (W1 - 3) ++ "License" ++
    spaces (W2 - 6) ++ "Security"

/-- The top border (line 83). -/
def topBorder : String :=
  "┌──" ++ srep '─' W0 ++ "┬" ++ srep '─' W1 ++ "┬" ++ srep '─' W2 ++ "┬" ++
    srep '─' W3 ++ "┐"

/-- The bottom border (line 164), printed from inside the per-row loop when the
current index is the last one. -/
def bottomBorder : String :=
  "└──" ++ srep '─' W0 ++ "┴" ++ srep '─' W1 ++ "┴" ++ srep '─' W2 ++ "┴" ++
    srep '─' W3 ++ "┘"

/-- The inter-row divider (line 166), printed when `dividers` is set. -/
def midBorder : String :=
  "├──" ++ srep '─' W0 ++ "┼" ++ srep '─' W1 ++ "┼" ++ srep '─' W2 ++ "┼" ++
    srep '─' W3 ++ "┤"

/-- `moduleList` (lines 78-168), as the list of lines printed: header, top
border, then for each package of the sorted report its row, followed by the
bottom border after the last row and by a divider between rows when
`dividers` is set.  `none` models a thrown `TypeError` (see `renderRow`). -/
def moduleList (report : List PackageResult) (dividers : Bool) :
    Option (List String) := do
  let sorted := moduleSort report
  let rows ← sorted.mapM renderRow
  return [headerLine, topBorder] ++
    (rows.enum.map (fun p =>
      if p.1 = sorted.length - 1 then [p.2, bottomBorder]
      else if dividers then [p.2, midBorder]
      else [p.2])).flatten

/-! ### shortVulnerabilityList (source lines 171-200) -/

/-- The `netSecurity` accumulator: per-severity counts and the `AFFECTED` set
of package names (a JS `Set`, modelled as a `Finset`: only membership and
`size` are used). -/
structure NetSecurity where
  low : Nat
  medium : Nat
  high : Nat
  critical : Nat
  affected : Finset String

/-- Accumulate one failure (lines 182-185): for `group === 'security'`,
`netSecurity[failure.severity]++` then `AFFECTED.add(pkg.name)`.  For severity
`NONE` the source increments `netSecurity['NONE']`, a key that starts out
absent (`undefined++` stores `NaN` there) and is never read; the name is still
added to `AFFECTED`. -/
def addSecurityFailure (pkgName : String) (ns : NetSecurity) (f : Failure) :
    NetSecurity :=
  if f.group = "security" then
    let bumped :=
      match f.severity with
      | Severity.CRITICAL => { ns with critical := ns.critical + 1 }
      | Severity.HIGH => { ns with high := ns.high + 1 }
      | Severity.MEDIUM => { ns with medium := ns.medium + 1 }
      | Severity.LOW => { ns with low := ns.low + 1 }
      | Severity.NONE => ns
    { bumped with affected := insert pkgName bumped.affected }
  else ns

/-- The accumulation loop (lines 180-187), over `pkg.failures || []`. -/
def netSecurityOf (report : List PackageResult) : NetSecurity :=
  report.foldl
    (fun ns pkg => (pkg.failures.getD []).foldl (addSecurityFailure pkg.name) ns)
    ⟨0, 0, 0, 0, ∅⟩

/-- `vulnerabilityCount` (line 189). -/
def vulnerabilityCount (ns : NetSecurity) : Nat :=
  ns.critical + ns.high + ns.medium + ns.low

/-- `shortVulnerabilityList`, as the list of lines printed: the headline
(mentioning the affected-module count only when it is positive) and the four
fixed severity lines. -/
def shortVulnerabilityList (report : List PackageResult) : List String :=
  let ns := netSecurityOf report
  let c := vulnerabilityCount ns
  let badge := if c > 0 then "!" else "✓"
  (if ns.affected.card > 0 then
    ["  " ++ badge ++ " " ++ toString c ++ " security vulnerabilities found across " ++
      toString ns.affected.card ++ " modules"]
  else
    ["  " ++ badge ++ " " ++ toString c ++ " security vulnerabilities found"]) ++
  ["    C " ++ toString ns.critical ++ " critical severity",
   "    H " ++ toString ns.high ++ " high severity",
   "    M " ++ toString ns.medium ++ " medium severity",
   "    L " ++ toString ns.low ++ " low severity"]

/-! ### Specification-side counting functions (for stating the claims; these
follow the specification's words, to be compared with the source embedding). -/

/-- The security-group entries of one record's `failures` list (absent list =
no entries). -/
def securityFailuresOf (pkg : PackageResult) : List Failure :=
  (pkg.failures.getD []).filter (fun f => decide (f.group = "security"))

/-- Whether a record has at least one security failure. -/
def hasSecurityFailure (pkg : PackageResult) : Bool :=
  (pkg.failures.getD []).any (fun f => decide (f.group = "security"))

/-- The number of security failures of severity `s` in one `failures` list. -/
def sevCountList (fs : List Failure) (s : Severity) : Nat :=
  (fs.filter (fun f => decide (f.group = "security" ∧ f.severity = s))).length

/-- The number of security failures of severity `s` across a report. -/
def sevCount (report : List PackageResult) (s : Severity) : Nat :=
  (report.map (fun pkg => sevCountList (pkg.failures.getD []) s)).sum

/-- The total number of security-group failure entries across a report
(any severity, `NONE` included), as the claim words it. -/
def totalSecurityEntries (report : List PackageResult) : Nat :=
  (report.map (fun pkg => (securityFailuresOf pkg).length)).sum

/-- The distinct package names having at least one security failure. -/
def affectedNamesOf (report : List PackageResult) : Finset String :=
  ((report.filter hasSecurityFailure).map PackageResult.name).toFinset

/-- The number of security-group failure entries with a severity in
LOW/MEDIUM/HIGH/CRITICAL (i.e. other than NONE) across a report. -/
def countedSecurityEntries (report : List PackageResult) : Nat :=
  (report.map (fun pkg => ((pkg.failures.getD []).filter
    (fun f => decide (f.group = "security" ∧ f.severity ≠ Severity.NONE))).length)).sum

/-! ### outputReport (source lines 63-76) -/

/-- Modelled from the spec: the outcome of an `outputReport` run.  `handleError`
(from `lib/util`, which is outside this module) reports a tool-level error
signal and does not rethrow, so the returned promise always resolves; we
represent a run by the outcome it resolves with. -/
inductive ReportOutcome where
  | success (path : String)
  | toolError (signal : String)
deriving DecidableEq, Repr

/-- The constructed filename `ncm-score-report-{timestamp}.json` (line 69),
`timestamp = new Date().valueOf()` being the millisecond epoch time. -/
def reportFileName (timestamp : Nat) : String :=
  "ncm-score-report-" ++ toString timestamp ++ ".json"

/-- Modelled from the spec: Node's `path.join` of a directory and a filename. -/
def pathJoin (dir file : String) : String :=
  dir ++ "/" ++ file

/-- `outputReport` (lines 63-76).  Effects are passed explicitly:
`dirArg = none` models a non-string `dir` argument, `cwd` is `process.cwd()`,
`timestamp` the current millisecond epoch, `stringifyReport` the result of
`JSON.stringify(report)` and `writeFile path contents` the result of the
filesystem write.  Any failure inside the `try` lands in the `catch`, which
calls `handleError('Tools::UnableToFormatOutput')`. -/
def outputReport (dirArg : Option String) (cwd : String) (timestamp : Nat)
    (stringifyReport : Except Unit String)
    (writeFile : String → String → Except Unit Unit) : ReportOutcome :=
  let dir := match dirArg with
    | some d => d
    | none => cwd
  match stringifyReport with
  | Except.error _ => ReportOutcome.toolError ("Tools::UnableToFormatOutput")
  | Except.ok json =>
    let reportFile := pathJoin dir (reportFileName timestamp)
    match writeFile reportFile json with
    | Except.ok _ => ReportOutcome.success reportFile
    | Except.error _ => ReportOutcome.toolError ("Tools::UnableToFormatOutput")

/-! ### Example inputs used by the concrete parts of the claims -/

/-- P1 of the specification's vulnerability-summary scenario: 2 HIGH and 1 LOW
security failures. -/
def exampleP1 : PackageResult :=
  { name := "P1", version := "1.0.0", published := true,
    failures := some [⟨"security", Severity.HIGH⟩, ⟨"security", Severity.HIGH⟩,
                      ⟨"security", Severity.LOW⟩] }

/-- P2 of the specification's vulnerability-summary scenario: 1 CRITICAL
security failure. -/
def exampleP2 : PackageResult :=
  { name := "P2", version := "1.0.0", published := true,
    failures := some [⟨"security", Severity.CRITICAL⟩] }

/-- A record with a single security failure of severity NONE: a legal input
(the data model draws failure severities from the full five-element set). -/
def exampleNoneSeverityPkg : PackageResult :=
  { name := "p", version := "1", published := true,
    failures := some [⟨"security", Severity.NONE⟩] }

/-- The failures list of the badge-omission scenario:
counts CRITICAL 0, HIGH 2, MEDIUM 0, LOW 1. -/
def exampleHighLowFailures : List Failure :=
  [⟨"security", Severity.HIGH⟩, ⟨"security", Severity.HIGH⟩,
   ⟨"security", Severity.LOW⟩]

/-- An unpublished record that nonetheless carries license and severity data. -/
def exampleUnpublishedPkg : PackageResult :=
  { name := "a", version := "1", published := false,
    license := some ⟨"MIT", true⟩, failures := none, maxSeverity := 9 }

/-- An unpublished record whose module cell overflows the column even after
truncation: a 29-character name with the 10-character version `1.2.3-beta`
gives a 42-character truncated cell, so the padding `' '.repeat(40 - 42)`
throws a `RangeError` and no row is rendered. -/
def exampleOverflowUnpublishedPkg : PackageResult :=
  { name := "aaaaaaaaaaaaaaaaaaaaaaaaaaaaa", version := "1.2.3-beta",
    published := false }

/-! ## Theorems -/

/-! ### The comparator order -/

/-- Unfolding of the comparator: `a` sorts no later than `b` iff `a` has the
strictly worse severity, or equal severity and `a.name ≤ b.name`. -/
theorem moduleLe_iff (a b : PackageResult) :
    moduleLe a b = true ↔
      b.maxSeverity < a.maxSeverity ∨
        (a.maxSeverity = b.maxSeverity ∧ a.name ≤ b.name) := by
  unfold moduleLe moduleCmp
  by_cases h1 : a.maxSeverity > b.maxSeverity
  · rw [if_pos h1]
    exact iff_of_true (by decide) (Or.inl h1)
  · rw [if_neg h1]
    by_cases h2 : b.maxSeverity > a.maxSeverity
    · rw [if_pos h2]
      refine iff_of_false (by decide) ?_
      rintro (hl | ⟨he, _⟩) <;> omega
    · rw [if_neg h2]
      have hsev : a.maxSeverity = b.maxSeverity := by omega
      rcases lt_trichotomy a.name b.name with hn | hn | hn
      · rw [if_pos hn]
        exact iff_of_true (by decide) (Or.inr ⟨hsev, le_of_lt hn⟩)
      · rw [if_neg (by simp [hn]), if_neg (by simp [hn])]
        exact iff_of_true (by decide) (Or.inr ⟨hsev, le_of_eq hn⟩)
      · rw [if_neg (lt_asymm hn), if_pos hn]
        refine iff_of_false (by decide) ?_
        rintro (hl | ⟨_, hle⟩)
        · omega
        · exact absurd hle (not_le.mpr hn)

/-- The comparator order is transitive. -/
theorem moduleLe_trans (a b c : PackageResult) :
    moduleLe a b = true → moduleLe b c = true → moduleLe a c = true := by
  simp only [moduleLe_iff]
  rintro (h1 | ⟨h1, h1n⟩) (h2 | ⟨h2, h2n⟩)
  · exact Or.inl (by omega)
  · exact Or.inl (by omega)
  · exact Or.inl (by omega)
  · exact Or.inr ⟨by omega, le_trans h1n h2n⟩

/-- The comparator order is total. -/
theorem moduleLe_total (a b : PackageResult) :
    (moduleLe a b || moduleLe b a) = true := by
  simp only [Bool.or_eq_true, moduleLe_iff]
  rcases Nat.lt_trichotomy a.maxSeverity b.maxSeverity with h | h | h
  · exact Or.inr (Or.inl h)
  · rcases le_total a.name b.name with hn | hn
    · exact Or.inl (Or.inr ⟨h, hn⟩)
    · exact Or.inr (Or.inr ⟨h.symm, hn⟩)
  · exact Or.inl (Or.inl h)

/-- C1: for every report, after `moduleSort` every adjacent pair of records is
ordered by `maxSeverity` descending, and by `name` ascending when the
severities are equal. -/
theorem moduleSort_sorted (report : List PackageResult) :
    List.Chain' (fun a b => b.maxSeverity ≤ a.maxSeverity ∧
      (a.maxSeverity = b.maxSeverity → a.name ≤ b.name)) (moduleSort report) := by
  have hp := List.sorted_mergeSort moduleLe_trans moduleLe_total report
  refine List.Pairwise.chain' (List.Pairwise.imp ?_ hp)
  intro a b hab
  rcases (moduleLe_iff a b).mp hab with h | ⟨h1, h2⟩
  · exact ⟨le_of_lt h, fun he => by omega⟩
  · exact ⟨le_of_eq h1.symm, fun _ => h2⟩

/-- C9: `moduleSort` returns (a reordering of) the very sequence it was given,
and it is idempotent: sorting the sorted sequence leaves it unchanged. -/
theorem moduleSort_perm_idem (report : List PackageResult) :
    (moduleSort report).Perm report ∧
      moduleSort (moduleSort report) = moduleSort report :=
  ⟨List.mergeSort_perm report moduleLe,
   List.mergeSort_of_sorted (List.sorted_mergeSort moduleLe_trans moduleLe_total report)⟩

/-! ### The vulnerability summary -/

/-- The accumulation of one record's failure list into `netSecurity`, in closed
form: each per-severity counter grows by that severity's security-failure
count, and the record's name joins `AFFECTED` iff the list has a security
failure. -/
theorem foldl_addSecurityFailure (name : String) (fs : List Failure)
    (ns : NetSecurity) :
    fs.foldl (addSecurityFailure name) ns =
      ⟨ns.low + sevCountList fs Severity.LOW,
       ns.medium + sevCountList fs Severity.MEDIUM,
       ns.high + sevCountList fs Severity.HIGH,
       ns.critical + sevCountList fs Severity.CRITICAL,
       if fs.any (fun f => decide (f.group = "security")) then
         insert name ns.affected
       else ns.affected⟩ := by
  induction fs generalizing ns with
  | nil => simp [sevCountList]
  | cons f rest ih =>
    obtain ⟨g, sv⟩ := f
    rw [List.foldl_cons, ih]
    by_cases hg : g = "security"
    · subst hg
      cases sv <;>
        simp only [addSecurityFailure, if_pos rfl, sevCountList, List.filter_cons,
          List.any_cons, decide_eq_true_eq] <;>
        simp [sevCountList, Finset.insert_idem] <;>
        omega
    · simp [addSecurityFailure, hg, sevCountList, List.filter_cons]

/-- The accumulation over a whole report, in closed form. -/
theorem foldl_netSecurity (report : List PackageResult) (ns : NetSecurity) :
    report.foldl
        (fun ns pkg => (pkg.failures.getD []).foldl (addSecurityFailure pkg.name) ns)
        ns =
      ⟨ns.low + sevCount report Severity.LOW,
       ns.medium + sevCount report Severity.MEDIUM,
       ns.high + sevCount report Severity.HIGH,
       ns.critical + sevCount report Severity.CRITICAL,
       ns.affected ∪ affectedNamesOf report⟩ := by
  induction report generalizing ns with
  | nil => simp [sevCount, affectedNamesOf]
  | cons pkg rest ih =>
    rw [List.foldl_cons, foldl_addSecurityFailure, ih]
    have haff : affectedNamesOf (pkg :: rest) =
        if hasSecurityFailure pkg then insert pkg.name (affectedNamesOf rest)
        else affectedNamesOf rest := by
      by_cases hp : hasSecurityFailure pkg <;>
        simp [affectedNamesOf, List.filter_cons, hp]
    rw [haff]
    by_cases hp : hasSecurityFailure pkg <;>
      simp only [hasSecurityFailure] at hp <;>
      simp [sevCount, hp, Finset.insert_union, Finset.union_insert,
        hasSecurityFailure, NetSecurity.mk.injEq] <;>
      omega

/-- `netSecurityOf` in closed form: the four counters are the per-severity
security-failure counts and `AFFECTED` is the set of names with at least one
security failure. -/
theorem netSecurityOf_eq (report : List PackageResult) :
    netSecurityOf report =
      ⟨sevCount report Severity.LOW, sevCount report Severity.MEDIUM,
       sevCount report Severity.HIGH, sevCount report Severity.CRITICAL,
       affectedNamesOf report⟩ := by
  simpa [netSecurityOf] using foldl_netSecurity report ⟨0, 0, 0, 0, ∅⟩

/-- Per list: the four non-NONE severity counts sum to the count of security
entries whose severity is not NONE. -/
theorem sevCountList_total (fs : List Failure) :
    sevCountList fs Severity.CRITICAL + sevCountList fs Severity.HIGH +
      sevCountList fs Severity.MEDIUM + sevCountList fs Severity.LOW =
      (fs.filter (fun f =>
        decide (f.group = "security" ∧ f.severity ≠ Severity.NONE))).length := by
  induction fs with
  | nil => simp [sevCountList]
  | cons f rest ih =>
    obtain ⟨g, sv⟩ := f
    by_cases hg : g = "security"
    · subst hg
      cases sv <;>
        simp only [sevCountList, List.filter_cons, decide_eq_true_eq] <;>
        simp [sevCountList] at ih ⊢ <;>
        omega
    · simp only [sevCountList, List.filter_cons, decide_eq_true_eq]
      simp [sevCountList, hg] at ih ⊢
      omega

/-- The headline total equals the count of security entries with a non-NONE
severity. -/
theorem vulnerabilityCount_eq (report : List PackageResult) :
    vulnerabilityCount (netSecurityOf report) = countedSecurityEntries report := by
  rw [netSecurityOf_eq]
  unfold vulnerabilityCount countedSecurityEntries
  induction report with
  | nil => simp [sevCount]
  | cons pkg rest ih =>
    simp only [sevCount, List.map_cons, List.sum_cons] at ih ⊢
    have := sevCountList_total (pkg.failures.getD [])
    omega

/-- C2 (amended): `shortVulnerabilityList` reports a total equal to the number
of security-group failure entries with severity LOW/MEDIUM/HIGH/CRITICAL
(security entries of severity NONE are left out of the total, though they do
mark their module as affected), summed over every record's failures list,
records with `published: false` included; an affected-modules count equal to
the number of distinct package names with at least one security failure,
mentioned only when positive; exactly four per-severity lines carrying the
per-severity counts; and on P1 (2 HIGH, 1 LOW) and P2 (1 CRITICAL) it reports
total 4, affected modules 2, CRITICAL 1, HIGH 2, MEDIUM 0, LOW 1. -/
theorem shortVulnerabilityList_spec :
    (∀ report : List PackageResult,
      vulnerabilityCount (netSecurityOf report) = countedSecurityEntries report ∧
      (netSecurityOf report).critical = sevCount report Severity.CRITICAL ∧
      (netSecurityOf report).high = sevCount report Severity.HIGH ∧
      (netSecurityOf report).medium = sevCount report Severity.MEDIUM ∧
      (netSecurityOf report).low = sevCount report Severity.LOW ∧
      (netSecurityOf report).affected.card = (affectedNamesOf report).card ∧
      shortVulnerabilityList report =
        (if (affectedNamesOf report).card > 0 then
          ["  " ++ (if countedSecurityEntries report > 0 then "!" else "✓") ++ " " ++
            toString (countedSecurityEntries report) ++
            " security vulnerabilities found across " ++
            toString (affectedNamesOf report).card ++ " modules"]
        else
          ["  " ++ (if countedSecurityEntries report > 0 then "!" else "✓") ++ " " ++
            toString (countedSecurityEntries report) ++
            " security vulnerabilities found"]) ++
        ["    C " ++ toString (sevCount report Severity.CRITICAL) ++ " critical severity",
         "    H " ++ toString (sevCount report Severity.HIGH) ++ " high severity",
         "    M " ++ toString (sevCount report Severity.MEDIUM) ++ " medium severity",
         "    L " ++ toString (sevCount report Severity.LOW) ++ " low severity"]) ∧
    shortVulnerabilityList [exampleP1, exampleP2] =
      ["  ! 4 security vulnerabilities found across 2 modules",
       "    C 1 critical severity",
       "    H 2 high severity",
       "    M 0 medium severity",
       "    L 1 low severity"] := by
  constructor
  · intro report
    have hvc := vulnerabilityCount_eq report
    have hns := netSecurityOf_eq report
    have htot : sevCount report Severity.CRITICAL + sevCount report Severity.HIGH +
        sevCount report Severity.MEDIUM + sevCount report Severity.LOW =
        countedSecurityEntries report := by
      rw [hns] at hvc
      simpa [vulnerabilityCount] using hvc
    refine ⟨vulnerabilityCount_eq report, by rw [hns], by rw [hns], by rw [hns],
      by rw [hns], by rw [hns], ?_⟩
    simp only [shortVulnerabilityList, hns, vulnerabilityCount, htot]
  · rfl

/-- C2 counterexample: on a report whose single record has one security
failure of severity NONE, the number of security-group failure entries is 1,
yet the reported total is 0 (the record still counts as an affected module). -/
theorem shortVulnerabilityList_total_counterexample :
    totalSecurityEntries [exampleNoneSeverityPkg] = 1 ∧
    vulnerabilityCount (netSecurityOf [exampleNoneSeverityPkg]) = 0 ∧
    shortVulnerabilityList [exampleNoneSeverityPkg] =
      ["  ✓ 0 security vulnerabilities found across 1 modules",
       "    C 0 critical severity",
       "    H 0 high severity",
       "    M 0 medium severity",
       "    L 0 low severity"] :=
  ⟨rfl, rfl, rfl⟩

/-- C10: a record whose `failures` field is absent contributes nothing to the
vulnerability summary (zero counts, not affected) and causes no failure: the
headline and the four severity lines are still produced. -/
theorem shortVulnerabilityList_missing_failures (r1 r2 : List PackageResult)
    (pkg : PackageResult) (h : pkg.failures = none) :
    netSecurityOf (r1 ++ pkg :: r2) = netSecurityOf (r1 ++ r2) ∧
    (shortVulnerabilityList (r1 ++ pkg :: r2)).length = 5 := by
  constructor
  · simp [netSecurityOf, List.foldl_append, h]
  · rw [shortVulnerabilityList]
    by_cases hc : (netSecurityOf (r1 ++ pkg :: r2)).affected.card > 0 <;>
      simp [hc]

/-- C10 witness: the theorem applied to the one-record report whose record has
no `failures` field. -/
theorem shortVulnerabilityList_missing_failures_witness :
    netSecurityOf ([] ++ ({ name := "a", version := "1", published := false } :
        PackageResult) :: []) = netSecurityOf ([] ++ []) ∧
    (shortVulnerabilityList
      ([] ++ ({ name := "a", version := "1", published := false } :
        PackageResult) :: [])).length = 5 :=
  shortVulnerabilityList_missing_failures [] [] _ rfl

/-! ### The module-name cell -/

/-- The length of a JS `slice(0, n)`. -/
theorem jsSlice_length (s : String) (n : Nat) :
    (jsSlice s n).length = min n s.length := by
  simp [jsSlice, List.length_take]

/-- C3 (amended): a module cell whose `"{name} @ {version}"` exceeds the
40-character column is rendered as the first 26 characters of the name, an
ellipsis, and the full version; the version suffix is present untruncated;
and the cell stays within the 40-character column width *provided the version
is at most 8 characters long* (the name is the only part truncated, so a
longer version overflows the column — see
`moduleNameCell_overflow_counterexample`). -/
theorem moduleNameCell_truncation (name version : String)
    (h : (name ++ " @ " ++ version).length > 40) :
    moduleNameCell name version = jsSlice name 26 ++ "... @ " ++ version ∧
    ("...").data <:+: (moduleNameCell name version).data ∧
    (" @ " ++ version).data <:+ (moduleNameCell name version).data ∧
    (version.length ≤ 8 → (moduleNameCell name version).length ≤ 40) := by
  have he : moduleNameCell name version = jsSlice name 26 ++ "... @ " ++ version := by
    simp only [moduleNameCell, W0]
    rw [if_pos h]
  have hsplit : ("... @ " : String).data = ("..." : String).data ++ (" @ " : String).data := rfl
  refine ⟨he, ?_, ?_, ?_⟩
  · rw [he]
    refine ⟨(jsSlice name 26).data, (" @ " : String).data ++ version.data, ?_⟩
    simp [hsplit, List.append_assoc]
  · rw [he]
    refine ⟨(jsSlice name 26).data ++ ("...").data, ?_⟩
    simp [hsplit, List.append_assoc]
  · intro hv
    rw [he]
    have h6 : ("... @ " : String).length = 6 := rfl
    have hmin := jsSlice_length name 26
    simp only [String.length_append, h6]
    omega

/-- C3 counterexample: a 29-character name with a 10-character version
overflows the column (length 42 > 40 for both the raw and the truncated
cell), so the rendered cell exceeds the declared column width.  (In the
source this even makes the subsequent `' '.repeat(W[0] - mod.length)` padding
call throw a `RangeError`.) -/
theorem moduleNameCell_overflow_counterexample :
    (moduleNameCell ("aaaaaaaaaaaaaaaaaaaaaaaaaaaaa") ("1.2.3-beta")).length = 42 ∧
    40 < 42 :=
  ⟨rfl, by omega⟩

/-- C3 witness: the truncation theorem applied to a 35-character name with the
5-character version `1.2.3`. -/
theorem moduleNameCell_truncation_witness :
    moduleNameCell ("aaaaaaaaaaaaaaaaaaaaaaaaaaaaaaaaaaa") ("1.2.3") =
      jsSlice ("aaaaaaaaaaaaaaaaaaaaaaaaaaaaaaaaaaa") 26 ++ "... @ " ++ "1.2.3" ∧
    (moduleNameCell ("aaaaaaaaaaaaaaaaaaaaaaaaaaaaaaaaaaa") ("1.2.3")).length ≤ 40 :=
  ⟨(moduleNameCell_truncation _ _ (by decide)).1,
   (moduleNameCell_truncation _ _ (by decide)).2.2.2 (by decide)⟩

/-! ### The risk badge -/

/-- C4: `severityMeter` builds the full 4-slot meter (`"||||"` as text, the
first `risk` slots in the severity's color), but the cell assembled at lines
127-129 is `severityMeter(...)[0] + severityMeter(...)[1]` — character
indexing into the joined meter *string* — so only the first two characters of
the meter reach the Risk Score cell: for CRITICAL (ordinal 4) the cell text is
`"||Crit"` and does not contain a 4-slot meter at all.  (With ANSI colors
enabled the two indexed characters are escape-sequence bytes, garbling the
cell further.) -/
theorem riskBadge_garbled :
    severityMeter Severity.CRITICAL = "||||" ∧
    riskBadge Severity.CRITICAL = "||Crit" ∧
    ¬ (("||||").data <:+: ("||Crit").data) :=
  ⟨rfl, rfl, by decide⟩

/-! ### The security badges -/

/-- C5: in the Security cell, after the aggregate pass/fail glyph, the badge
list contains exactly one `{n}{letter}` badge per severity bucket with a
nonzero count, ordered CRITICAL, HIGH, MEDIUM, LOW, and nothing for zero
buckets; on counts CRITICAL 0, HIGH 2, MEDIUM 0, LOW 1 the cell is the fail
glyph followed by exactly the H and L badges. -/
theorem securityBadges_spec :
    (∀ fs : List Failure,
      (securityBadges fs).head? =
        some (if (vulnsOf fs).low + (vulnsOf fs).medium + (vulnsOf fs).high +
            (vulnsOf fs).critical = 0 then "✓ 0" else "X ") ∧
      ((securityBadges fs).drop 1).filter (fun x => decide (x ≠ "")) =
        ([((vulnsOf fs).critical, "C "), ((vulnsOf fs).high, "H "),
          ((vulnsOf fs).medium, "M "), ((vulnsOf fs).low, "L ")].filter
            (fun p => decide (p.1 > 0))).map
          (fun p => toString p.1 ++ p.2)) ∧
    securityBadges exampleHighLowFailures = ["X ", "", "2H ", "", "1L "] ∧
    String.join (securityBadges exampleHighLowFailures) = "X 2H 1L " := by
  refine ⟨?_, rfl, rfl⟩
  intro fs
  have hne : ∀ (n : Nat) (s : String), s.length ≠ 0 → toString n ++ s ≠ "" := by
    intro n s hs he
    have hl := congrArg String.length he
    rw [String.length_append, String.length_empty] at hl
    omega
  constructor
  · simp [securityBadges]
  · by_cases hc : (vulnsOf fs).critical > 0 <;>
    by_cases hh : (vulnsOf fs).high > 0 <;>
    by_cases hm : (vulnsOf fs).medium > 0 <;>
    by_cases hl : (vulnsOf fs).low > 0 <;>
      simp [securityBadges, List.filter_cons, hc, hh, hm, hl,
        hne (vulnsOf fs).critical ("C ") (by decide),
        hne (vulnsOf fs).high ("H ") (by decide),
        hne (vulnsOf fs).medium ("M ") (by decide),
        hne (vulnsOf fs).low ("L ") (by decide)]

/-! ### Unpublished rows -/

/-- C6 (amended): a row for a record with `published: false` whose module-name
cell fits the 40-character column consists of the module-name cell followed by
Risk, License and Security cells that are nothing but blank padding between
the border characters, and the rendering reads none of the `license`,
`failures` and `maxSeverity` fields: any values there leave the row unchanged.
(When the module cell overflows the column the padding computation throws and
no row is rendered at all — see
`renderRow_unpublished_overflow_counterexample`.) -/
theorem renderRow_unpublished (pkg : PackageResult) (h : pkg.published = false)
    (hfit : (moduleNameCell pkg.name pkg.version).length ≤ 40) :
    renderRow pkg =
      some ("│ " ++ moduleNameCell pkg.name pkg.version ++ " " ++
        spaces (40 - (moduleNameCell pkg.name pkg.version).length) ++ "│ " ++
        spaces 11 ++ "│" ++ spaces 23 ++ "│" ++ spaces 15 ++ "│") ∧
    ∀ (lic : Option License) (fs : Option (List Failure)) (ms : Nat),
      renderRow { pkg with license := lic, failures := fs, maxSeverity := ms } =
        renderRow pkg := by
  have hcell : moduleCellPart pkg =
      some ("│ " ++ moduleNameCell pkg.name pkg.version ++ " " ++
        spaces (40 - (moduleNameCell pkg.name pkg.version).length) ++ "│ ") := by
    simp only [moduleCellPart, W0]
    rw [if_neg (by omega)]
  constructor
  · simp [renderRow, h, unpublishedRow, hcell, W1, W2, W3, String.append_assoc]
  · intro lic fs ms
    simp [renderRow, h, unpublishedRow, moduleCellPart]

/-- C6 witness: the theorem applied to an unpublished record (5-character
module cell) that carries a license and an (out-of-range) `maxSeverity`. -/
theorem renderRow_unpublished_witness :
    renderRow exampleUnpublishedPkg =
      some ("│ " ++ moduleNameCell exampleUnpublishedPkg.name
          exampleUnpublishedPkg.version ++ " " ++
        spaces (40 - (moduleNameCell exampleUnpublishedPkg.name
          exampleUnpublishedPkg.version).length) ++ "│ " ++
        spaces 11 ++ "│" ++ spaces 23 ++ "│" ++ spaces 15 ++ "│") :=
  (renderRow_unpublished _ rfl (by decide)).1

/-- C6 counterexample: for an unpublished record whose truncated module cell
is 42 characters, the source throws a `RangeError` in the padding
(`' '.repeat(40 - 42)`) and renders nothing — no blank-padded cells — so the
claim's unconditional universal fails. -/
theorem renderRow_unpublished_overflow_counterexample :
    exampleOverflowUnpublishedPkg.published = false ∧
    (moduleNameCell exampleOverflowUnpublishedPkg.name
      exampleOverflowUnpublishedPkg.version).length = 42 ∧
    renderRow exampleOverflowUnpublishedPkg = none ∧
    moduleList [exampleOverflowUnpublishedPkg] false = none := by
  have hr : renderRow exampleOverflowUnpublishedPkg = none := rfl
  refine ⟨rfl, rfl, hr, ?_⟩
  simp [moduleList, moduleSort, List.mapM.loop, hr]

/-! ### The empty report -/

/-- C7 (amended): on the empty report, `moduleSort` returns the empty
sequence; `moduleList` emits only the header row and the top border — the
bottom border is printed from inside the per-record loop, so no bottom border
(and no data row) is emitted; and `shortVulnerabilityList` reports a total of
0 with no affected-modules mention and all four severity lines at 0. -/
theorem empty_report_behaviour :
    moduleSort [] = [] ∧
    (∀ dividers, moduleList [] dividers = some [headerLine, topBorder]) ∧
    shortVulnerabilityList [] =
      ["  ✓ 0 security vulnerabilities found",
       "    C 0 critical severity",
       "    H 0 high severity",
       "    M 0 medium severity",
       "    L 0 low severity"] := by
  refine ⟨by simp [moduleSort], fun dividers => ?_, rfl⟩
  simp [moduleList, moduleSort, List.mapM.loop]

/-- C7 counterexample: on the empty report the emitted lines are exactly the
header and the top border — the bottom border (a line the claim requires) is
not among them. -/
theorem empty_report_no_bottom_border :
    moduleList [] false = some [headerLine, topBorder] ∧
    headerLine ≠ bottomBorder ∧ topBorder ≠ bottomBorder := by
  refine ⟨by simp [moduleList, moduleSort, List.mapM.loop], by decide, by decide⟩

/-! ### outputReport -/

/-- C8: `outputReport` always resolves to either a success outcome or the
tool-level error signal `Tools::UnableToFormatOutput` — no fault propagates;
a non-string directory argument behaves exactly like passing the process's
working directory, the attempted file being
`{cwd}/ncm-score-report-{timestamp}.json`; and a serialization failure yields
the same tool-level error signal. -/
theorem outputReport_spec :
    (∀ (dirArg : Option String) (cwd : String) (timestamp : Nat)
        (st : Except Unit String) (wf : String → String → Except Unit Unit),
      outputReport dirArg cwd timestamp st wf =
          ReportOutcome.toolError ("Tools::UnableToFormatOutput") ∨
        ∃ p, outputReport dirArg cwd timestamp st wf = ReportOutcome.success p) ∧
    (∀ (cwd : String) (timestamp : Nat) (st : Except Unit String)
        (wf : String → String → Except Unit Unit),
      outputReport none cwd timestamp st wf =
        outputReport (some cwd) cwd timestamp st wf) ∧
    (∀ (cwd : String) (timestamp : Nat) (json : String)
        (wf : String → String → Except Unit Unit),
      outputReport none cwd timestamp (Except.ok json) wf =
        match wf (pathJoin cwd (reportFileName timestamp)) json with
        | Except.ok _ =>
            ReportOutcome.success (pathJoin cwd (reportFileName timestamp))
        | Except.error _ =>
            ReportOutcome.toolError ("Tools::UnableToFormatOutput")) ∧
    (∀ (dirArg : Option String) (cwd : String) (timestamp : Nat) (e : Unit)
        (wf : String → String → Except Unit Unit),
      outputReport dirArg cwd timestamp (Except.error e) wf =
        ReportOutcome.toolError ("Tools::UnableToFormatOutput")) := by
  refine ⟨?_, ?_, ?_, ?_⟩
  · intro dirArg cwd ts st wf
    cases st with
    | error e => exact Or.inl rfl
    | ok json =>
      cases dirArg with
      | none =>
        cases hw : wf (pathJoin cwd (reportFileName ts)) json with
        | ok u =>
          exact Or.inr ⟨pathJoin cwd (reportFileName ts), by simp [outputReport, hw]⟩
        | error u => exact Or.inl (by simp [outputReport, hw])
      | some d =>
        cases hw : wf (pathJoin d (reportFileName ts)) json with
        | ok u =>
          exact Or.inr ⟨pathJoin d (reportFileName ts), by simp [outputReport, hw]⟩
        | error u => exact Or.inl (by simp [outputReport, hw])
  · intro cwd ts st wf
    rfl
  · intro cwd ts json wf
    rfl
  · intro dirArg cwd ts e wf
    rfl

end NcmReport
